import Mathlib

/-
Shallow embedding of the tailx multi-file tailing reader
(src/reader/tailx/tailx.go) and proofs about its specification.

Modelling conventions:
- Machine time (Go time.Time / time.Duration) is modelled as Int
  (nanoseconds); time.Add is + and Before is <.
- Go maps (fileReaders, cacheMap) are association lists with the
  Go map-assignment semantics (replace the key if present, else add).
- The external Line Source (reader.BufReader) is modelled as the list
  of (line, read error) results it will return; the external JSON codec
  (jsoniter Marshal/Unmarshal of map[string]string) is modelled as the
  identity on association lists; the Offset Store write is recorded as
  the list of buffers written.
- Channel sends/receives and the select timer are modelled by explicit
  events; closing a closed channel is recorded as a panic flag.
- Atomic status fields become an explicit Status value threaded through
  the state; a concurrent observation of the status is a parameter of
  the modelled operation.
-/

namespace Tailx

/-- Lifecycle status values (reader.StatusInit / Running / Stopping / Stopped). -/
inductive Status where
  | sInit
  | sRunning
  | sStopping
  | sStopped
deriving DecidableEq, Repr

/-- Model of one ActiveReader (FileTailer): the fields of the Go struct that
the claims are about.  brClosed records whether ar.br.Close() has been called. -/
structure ActiveReader where
  realpath : String
  originpath : String
  readcache : String
  status : Status
  inactive : Nat
  emptyLineCnt : Nat
  brClosed : Bool
deriving DecidableEq, Repr

/-- Association-list lookup with Go map semantics (first match wins; keys are unique). -/
def alook (m : List (String × α)) (k : String) : Option α :=
  match m with
  | [] => none
  | (k0, v) :: rest => if k0 = k then some v else alook rest k

/-- Go map assignment m[k] = v: replace the entry if the key is present, else append. -/
def mapSet (m : List (String × α)) (k : String) (v : α) : List (String × α) :=
  match m with
  | [] => [(k, v)]
  | (k0, v0) :: rest => if k0 = k then (k, v) :: rest else (k0, v0) :: mapSet rest k v

/-- NewActiveReader (tailx.go:76-107): the constructed tailer has
inactive = 1, emptyLineCnt = 0, status = StatusInit, empty readcache,
and its underlying buffered reader open. -/
def NewActiveReader (originPath realPath : String) : ActiveReader :=
  { realpath := realPath
    originpath := originPath
    readcache := ""
    status := Status.sInit
    inactive := 1
    emptyLineCnt := 0
    brClosed := false }

/-- Outcome of os.Stat in ActiveReader.expired. -/
inductive StatResult where
  | notExist
  | otherErr
  | ok (modTime : Int)
deriving DecidableEq, Repr

/-- ActiveReader.expired (tailx.go:239-252): true when the file no longer
exists; false on any other stat error; otherwise true iff the file is
older than now - expireDur and the inactive flag is set. -/
def ActiveReader.expired (ar : ActiveReader) (stat : StatResult) (expireDur now : Int) : Bool :=
  match stat with
  | StatResult.notExist => true
  | StatResult.otherErr => false
  | StatResult.ok modTime => decide (modTime + expireDur < now) && decide (0 < ar.inactive)

/-- Error component of one br.ReadLine result. -/
inductive RErr where
  | noErr
  | eofErr
  | otherErr
deriving DecidableEq, Repr

/-- One iteration of the Run loop (tailx.go:122-149) in the state where
readcache is empty, given the (line, error) pair returned by br.ReadLine:
a non-EOF error leaves the counters alone (sendError + sleep + continue);
an empty line increments emptyLineCnt, and sets inactive on EOF or once
the counter exceeds 60*60; a nonempty line is stored as the pending line. -/
def ActiveReader.runReadStep (ar : ActiveReader) (s : String) (e : RErr) : ActiveReader :=
  let st := { ar with readcache := s }
  if e = RErr.otherErr then st
  else if s = "" then
    let cnt := ar.emptyLineCnt + 1
    if e = RErr.eofErr then { st with emptyLineCnt := cnt, inactive := 1 }
    else if cnt > 60 * 60 then { st with emptyLineCnt := cnt, inactive := 1 }
    else { st with emptyLineCnt := cnt }
  else st

/-- One attempt of the inner delivery loop of Run (tailx.go:152-177) while the
status is Running: if a pending line is buffered, the inactive flag and the
empty-read counter are cleared before the send attempt; a successful send
(delivered = true) clears the pending line, a timer tick leaves it buffered. -/
def ActiveReader.runDeliverStep (ar : ActiveReader) (delivered : Bool) : ActiveReader :=
  if ar.readcache = "" then ar
  else
    let st := { ar with inactive := 0, emptyLineCnt := 0 }
    if delivered then { st with readcache := "" } else st

/-- The nonempty lines produced by successive br.ReadLine results: read errors
only delay the loop (the line returned alongside the error stays in readcache
and is delivered on the next iteration), empty lines are dropped. -/
def drainEmissions : List (String × RErr) → List String
  | [] => []
  | (s, _) :: rest => if s = "" then drainEmissions rest else s :: drainEmissions rest

/-- The sequence of lines an ActiveReader run loop delivers on the shared
result stream, given the results its Line Source will return, assuming the
status stays Running and every send is eventually accepted: the seeded
pending line (if any) first, then the nonempty source lines in order
(tailx.go:109-179).  The source list stands for the reads after the offset
the underlying reader was synced to. -/
def ActiveReader.runEmissions (ar : ActiveReader) (src : List (String × RErr)) : List String :=
  if ar.readcache = "" then drainEmissions src
  else ar.readcache :: drainEmissions src

/-- Result of ActiveReader.Close: the tailer afterwards, the returned error
(that of br.Close), and whether the bounded wait-for-Stopped poll ran. -/
structure ARClose where
  ar : ActiveReader
  err : Option String
  polled : Bool
deriving DecidableEq, Repr

/-- ActiveReader.Close (tailx.go:180-201): close the underlying buffered
reader first; then a CAS Running -> Stopping; when the CAS fails (status is
not Running) the br.Close error is returned immediately with no polling wait
and the status left untouched; when it succeeds the status becomes Stopping
and Close polls (bounded) for the run loop to reach Stopped. -/
def ActiveReader.Close (ar : ActiveReader) (brErr : Option String) : ARClose :=
  let ar2 := { ar with brClosed := true }
  if ar2.status = Status.sRunning then
    { ar := { ar2 with status := Status.sStopping }, err := brErr, polled := true }
  else
    { ar := ar2, err := brErr, polled := false }

/-- Model of the Reader (PatternWatcher): the fields the claims are about.
fileReaders is keyed by realpath; cacheMap maps realpath to the persisted
pending line; msgChanClosed / errChanClosed record whether the shared
streams have been closed. -/
structure Reader where
  status : Status
  fileReaders : List (String × ActiveReader)
  cacheMap : List (String × String)
  maxOpenFiles : Int
  expire : Int
  msgChanClosed : Bool
  errChanClosed : Bool
  curFile : String
deriving DecidableEq, Repr

/-- NewReader (tailx.go:254-320) after configuration parsing succeeded:
the offset buffer read back from the Offset Store (unmarshalled into
cacheMap; absent or corrupt buffer degenerates to the empty map), an empty
fileReaders map, open channels, StatusInit. -/
def NewReader (maxOpenFiles expire : Int) (buf : List (String × String)) : Reader :=
  { status := Status.sInit
    fileReaders := []
    cacheMap := buf
    maxOpenFiles := maxOpenFiles
    expire := expire
    msgChanClosed := false
    errChanClosed := false
    curFile := "" }

/-- One glob match as seen by StatLogPath: its origin path, resolved real
path, whether GetRealPath failed, whether it is a directory, its
modification time, and whether NewActiveReader fails for it. -/
structure MatchInfo where
  origin : String
  realpath : String
  statErr : Bool
  isDir : Bool
  modTime : Int
  newErr : Bool
deriving DecidableEq, Repr

/-- Result of one discovery pass: the reader afterwards, the realpaths whose
run loop was started (go ar.Run()), and the tailers that were created but
abandoned because the watch status was observed Stopped. -/
structure DiscoveryResult where
  reader : Reader
  started : List String
  abandoned : List ActiveReader
deriving DecidableEq, Repr

/-- Processing of one glob match inside StatLogPath (tailx.go:386-442):
skip on stat error, directories, already-tracked realpaths; skip when the
cached pending line is empty and the file is older than now - expire; skip
when NewActiveReader fails; otherwise seed the new tailer with the cached
pending line and, unless the watch status is Stopped, register it in
fileReaders and start its run loop.  When the status is Stopped the created
tailer is merely dropped (logged and ignored): it is not closed. -/
def statLogPathStep (now : Int) (acc : DiscoveryResult) (m : MatchInfo) : DiscoveryResult :=
  let mr := acc.reader
  if m.statErr then acc
  else if m.isDir then acc
  else if (alook mr.fileReaders m.realpath).isSome then acc
  else
    let cacheline := (alook mr.cacheMap m.realpath).getD ""
    if cacheline = "" && decide (m.modTime + mr.expire < now) then acc
    else if m.newErr then acc
    else
      let ar := { NewActiveReader m.origin m.realpath with readcache := cacheline }
      if mr.status = Status.sStopped then
        { acc with abandoned := acc.abandoned ++ [ar] }
      else
        { reader := { mr with fileReaders := mapSet mr.fileReaders m.realpath ar }
          started := acc.started ++ [m.realpath]
          abandoned := acc.abandoned }

/-- Reader.StatLogPath (tailx.go:370-446): when the tracked-file count has
reached maxOpenFiles the whole pass is skipped; otherwise every glob match
is processed in order with no further count check. -/
def Reader.StatLogPath (mr : Reader) (now : Int) (ms : List MatchInfo) : DiscoveryResult :=
  if (mr.fileReaders.length : Int) ≥ mr.maxOpenFiles then
    { reader := mr, started := [], abandoned := [] }
  else
    ms.foldl (statLogPathStep now) { reader := mr, started := [], abandoned := [] }

/-- One tailer contribution to Reader.SyncMeta (tailx.go:556-564):
ar.SyncMeta() flushes the sub-reader offset and returns the pending line;
an empty pending line leaves the cache map untouched, a nonempty one
overwrites the entry keyed by the tailer realpath. -/
def syncStep (cm : List (String × String)) (q : String × ActiveReader) : List (String × String) :=
  if q.2.readcache = "" then cm else mapSet cm q.2.realpath q.2.readcache

/-- Result of Reader.SyncMeta: the reader afterwards and the buffers written
through the Offset Store (jsoniter.Marshal modelled as the identity). -/
structure SyncResult where
  reader : Reader
  writes : List (List (String × String))
deriving DecidableEq, Repr

/-- Reader.SyncMeta (tailx.go:554-578): every tracked tailer with a nonempty
pending line updates its cacheMap entry; then the whole cacheMap is
serialized and written through the Offset Store as one single buffer. -/
def Reader.SyncMeta (mr : Reader) : SyncResult :=
  let newCache := mr.fileReaders.foldl syncStep mr.cacheMap
  { reader := { mr with cacheMap := newCache }, writes := [newCache] }

/-- Result of Reader.Close: the reader afterwards and whether the call
panicked (close of an already-closed channel). -/
structure RClose where
  reader : Reader
  panicked : Bool
deriving DecidableEq, Repr

/-- Reader.Close (tailx.go:486-508): store StatusStopped, grace sleep,
SyncMeta, close every tracked tailer, then close the shared msg and error
channels.  Closing an already-closed channel panics in Go, which the model
records in the panicked flag (the channel close is then not re-executed). -/
def Reader.Close (mr : Reader) : RClose :=
  let mr1 := { mr with status := Status.sStopped }
  let mr2 := (Reader.SyncMeta mr1).reader
  let mr3 := { mr2 with
    fileReaders := mr2.fileReaders.map (fun p => (p.1, (ActiveReader.Close p.2 none).ar)) }
  if mr3.msgChanClosed then { reader := mr3, panicked := true }
  else { reader := { mr3 with msgChanClosed := true, errChanClosed := true }, panicked := false }

/-- The event that resolves the select in Reader.ReadLine: a result arriving
on the shared msg channel, an error arriving on the shared error channel, or
the one-second timer firing. -/
inductive ReadEvent where
  | msg (result logpath : String)
  | errEv (e : String)
  | timeout
deriving DecidableEq, Repr

/-- Reader.ReadLine (tailx.go:537-551): select over the shared result
stream, the shared error stream and a one-second timer; a message sets
curFile and returns the line with no error; an error is returned as the
error; the timer yields an empty line and no error. -/
def Reader.ReadLine (mr : Reader) (ev : ReadEvent) : Reader × String × Option String :=
  match ev with
  | ReadEvent.msg result logpath => ({ mr with curFile := logpath }, result, none)
  | ReadEvent.errEv e => (mr, "", some e)
  | ReadEvent.timeout => (mr, "", none)

/-- A Reader in a given state with open channels and no current file:
a fixture constructor for concrete instances. -/
def mkReader (st : Status) (frs : List (String × ActiveReader))
    (cm : List (String × String)) (mof exp : Int) : Reader :=
  { status := st
    fileReaders := frs
    cacheMap := cm
    maxOpenFiles := mof
    expire := exp
    msgChanClosed := false
    errChanClosed := false
    curFile := "" }

/- ------------------------------------------------------------------ -/
/- Helper lemmas about the association-list map operations.            -/
/- ------------------------------------------------------------------ -/

lemma alook_mapSet_self (m : List (String × α)) (k : String) (v : α) :
    alook (mapSet m k v) k = some v := by
  induction m with
  | nil => simp [mapSet, alook]
  | cons p rest ih =>
    obtain ⟨k0, v0⟩ := p
    by_cases h : k0 = k
    · simp [mapSet, alook, h]
    · simp [mapSet, alook, h, ih]

lemma alook_mapSet_ne (m : List (String × α)) (k kq : String) (v : α) (h : k ≠ kq) :
    alook (mapSet m k v) kq = alook m kq := by
  induction m with
  | nil => simp [mapSet, alook, h]
  | cons p rest ih =>
    obtain ⟨k0, v0⟩ := p
    by_cases h0 : k0 = k
    · subst h0
      simp [mapSet, alook, h]
    · simp [mapSet, alook, h0, ih]

lemma mapSet_length_le (m : List (String × α)) (k : String) (v : α) :
    (mapSet m k v).length ≤ m.length + 1 := by
  induction m with
  | nil => simp [mapSet]
  | cons p rest ih =>
    obtain ⟨k0, v0⟩ := p
    by_cases h0 : k0 = k
    · simp [mapSet, h0]
    · simp only [mapSet, if_neg h0, List.length_cons]
      omega

lemma alook_isSome_mapSet (m : List (String × α)) (k kq : String) (v : α)
    (h : (alook m kq).isSome) : (alook (mapSet m k v) kq).isSome := by
  by_cases hk : k = kq
  · subst hk
    simp [alook_mapSet_self]
  · rw [alook_mapSet_ne m k kq v hk]
    exact h

/- ------------------------------------------------------------------ -/
/- C5: ActiveReader.expired                                            -/
/- ------------------------------------------------------------------ -/

/-- Claim C5: for every FileTailer and every duration, expired returns true
when the file no longer exists; false (no expiry) when stat fails for any
other reason; and on a successful stat it returns true iff the modification
time is older than now minus the duration and the inactive flag is set, so
a file that is stale by time but not flagged inactive is not expired. -/
theorem expired_characterization :
    ∀ (ar : ActiveReader) (dur now : Int),
      ar.expired StatResult.notExist dur now = true ∧
      ar.expired StatResult.otherErr dur now = false ∧
      (∀ mt : Int,
        (ar.expired (StatResult.ok mt) dur now = true ↔ mt + dur < now ∧ 0 < ar.inactive)) := by
  intro ar dur now
  refine ⟨rfl, rfl, ?_⟩
  intro mt
  simp [ActiveReader.expired]

/- ------------------------------------------------------------------ -/
/- C8: Reader.ReadLine                                                 -/
/- ------------------------------------------------------------------ -/

/-- Claim C8: ReadLine is a total select over the shared result stream, the
shared error stream and the one-second timer: a timer expiry yields an empty
line and no error (a timeout is not an error), an arriving result sets the
current file and is returned without error, and an arriving error is
returned as the error; no branch blocks past the timer. -/
theorem ReadLine_select_total :
    ∀ (mr : Reader),
      mr.ReadLine ReadEvent.timeout = (mr, "", none) ∧
      (∀ e, mr.ReadLine (ReadEvent.errEv e) = (mr, "", some e)) ∧
      (∀ res lp,
        mr.ReadLine (ReadEvent.msg res lp) = ({ mr with curFile := lp }, res, none)) := by
  intro mr
  exact ⟨rfl, fun _ => rfl, fun _ _ => rfl⟩

/- ------------------------------------------------------------------ -/
/- C10: ActiveReader.Close outside Running                             -/
/- ------------------------------------------------------------------ -/

/-- Claim C10: when ActiveReader.Close is called while the status is not
Running (Init because Run was never started, or already Stopping/Stopped),
it closes the underlying buffered reader, returns its error immediately
without any polling wait, and leaves the status unchanged; in particular a
tailer closed before Run starts remains in Init and never reaches Stopped. -/
theorem ActiveReader_Close_notRunning (ar : ActiveReader) (brErr : Option String)
    (h : ar.status ≠ Status.sRunning) :
    (ar.Close brErr).err = brErr ∧
    (ar.Close brErr).polled = false ∧
    (ar.Close brErr).ar.brClosed = true ∧
    (ar.Close brErr).ar.status = ar.status ∧
    (ar.status = Status.sInit → (ar.Close brErr).ar.status ≠ Status.sStopped) := by
  simp only [ActiveReader.Close]
  rw [if_neg (by simpa using h)]
  refine ⟨rfl, rfl, rfl, rfl, ?_⟩
  intro hInit
  simp [hInit]

/-- Witness for C10 at a freshly constructed tailer (status Init). -/
theorem ActiveReader_Close_notRunning_witness :
    ((NewActiveReader "o" "r").Close none).err = none ∧
    ((NewActiveReader "o" "r").Close none).polled = false ∧
    ((NewActiveReader "o" "r").Close none).ar.brClosed = true ∧
    ((NewActiveReader "o" "r").Close none).ar.status = (NewActiveReader "o" "r").status ∧
    ((NewActiveReader "o" "r").status = Status.sInit →
      ((NewActiveReader "o" "r").Close none).ar.status ≠ Status.sStopped) :=
  ActiveReader_Close_notRunning (NewActiveReader "o" "r") none (by decide)

/- ------------------------------------------------------------------ -/
/- C9: the inactive flag over the tailer life cycle                    -/
/- ------------------------------------------------------------------ -/

/-- Counterexample to claim C9: a freshly constructed FileTailer does not
start with the inactive flag clear — NewActiveReader sets it to 1. -/
theorem fresh_tailer_inactive_set :
    ¬ ((NewActiveReader "app.log" "app.log").inactive = 0) := by
  decide

/-- Claim C9 (amended): a freshly constructed FileTailer starts with the
inactive flag SET (inactive = 1) and the empty-read counter zero; the flag
is set again on end-of-stream and once the empty-read counter passes the
60*60 threshold; and obtaining a nonempty pending line clears the flag and
resets the empty-read counter (in the delivery loop, before the send). -/
theorem inactive_flag_lifecycle (o r : String) (ar arNE : ActiveReader) (d : Bool)
    (hne : arNE.readcache ≠ "") (hcnt : ar.emptyLineCnt + 1 > 60 * 60) :
    (NewActiveReader o r).inactive = 1 ∧
    (NewActiveReader o r).emptyLineCnt = 0 ∧
    (arNE.runDeliverStep d).inactive = 0 ∧
    (arNE.runDeliverStep d).emptyLineCnt = 0 ∧
    (ar.runReadStep "" RErr.eofErr).inactive = 1 ∧
    (ar.runReadStep "" RErr.noErr).inactive = 1 := by
  refine ⟨rfl, rfl, ?_, ?_, ?_, ?_⟩
  · simp only [ActiveReader.runDeliverStep, if_neg hne]
    cases d <;> simp
  · simp only [ActiveReader.runDeliverStep, if_neg hne]
    cases d <;> simp
  · simp [ActiveReader.runReadStep]
  · simp [ActiveReader.runReadStep, hcnt]

/-- Witness for the amended C9 at concrete tailer states. -/
theorem inactive_flag_lifecycle_witness :
    (NewActiveReader "o" "r").inactive = 1 ∧
    (NewActiveReader "o" "r").emptyLineCnt = 0 ∧
    (ActiveReader.runDeliverStep
      { realpath := "r", originpath := "o", readcache := "x", status := Status.sRunning,
        inactive := 1, emptyLineCnt := 7, brClosed := false } true).inactive = 0 ∧
    (ActiveReader.runDeliverStep
      { realpath := "r", originpath := "o", readcache := "x", status := Status.sRunning,
        inactive := 1, emptyLineCnt := 7, brClosed := false } true).emptyLineCnt = 0 ∧
    (ActiveReader.runReadStep
      { realpath := "r", originpath := "o", readcache := "", status := Status.sRunning,
        inactive := 0, emptyLineCnt := 3600, brClosed := false } "" RErr.eofErr).inactive = 1 ∧
    (ActiveReader.runReadStep
      { realpath := "r", originpath := "o", readcache := "", status := Status.sRunning,
        inactive := 0, emptyLineCnt := 3600, brClosed := false } "" RErr.noErr).inactive = 1 :=
  inactive_flag_lifecycle "o" "r"
    { realpath := "r", originpath := "o", readcache := "", status := Status.sRunning,
      inactive := 0, emptyLineCnt := 3600, brClosed := false }
    { realpath := "r", originpath := "o", readcache := "x", status := Status.sRunning,
      inactive := 1, emptyLineCnt := 7, brClosed := false }
    true (by decide) (by decide)

/- ------------------------------------------------------------------ -/
/- C2: double Close                                                    -/
/- ------------------------------------------------------------------ -/

/-- Counterexample to claim C2: on a concrete fresh Reader, calling Close a
second time after the first has completed panics (close of the
already-closed shared result channel). -/
theorem double_Close_panics :
    (Reader.Close (Reader.Close (NewReader 1 100 [])).reader).panicked = true := by
  decide

/-- Claim C2 (amended): a first Close of a Reader whose shared result
channel is still open completes without panic and closes the channel; a
second Close then panics when it re-closes the already-closed result
channel — Close is not idempotent (as also noted by the specification in
its interface section). -/
theorem Reader_Close_second_panics (mr : Reader) (h : mr.msgChanClosed = false) :
    (mr.Close).panicked = false ∧
    (mr.Close).reader.msgChanClosed = true ∧
    ((mr.Close).reader.Close).panicked = true := by
  simp [Reader.Close, Reader.SyncMeta, h]

/-- Witness for the amended C2 at a concrete fresh Reader. -/
theorem Reader_Close_second_panics_witness :
    ((NewReader 1 100 []).Close).panicked = false ∧
    ((NewReader 1 100 []).Close).reader.msgChanClosed = true ∧
    (((NewReader 1 100 []).Close).reader.Close).panicked = true :=
  Reader_Close_second_panics (NewReader 1 100 []) (by decide)

/- ------------------------------------------------------------------ -/
/- C4: the discovery expire/cache filter                               -/
/- ------------------------------------------------------------------ -/

/-- Claim C4: during discovery, a glob match that stats correctly, is not a
directory, is not already tracked (and whose tailer construction succeeds,
while the watch is not concurrently stopped) is skipped exactly when its
cached pending line is empty AND its modification time is older than
now - expire; a match with a nonempty cached pending line is accepted and
its new tailer is seeded with that line, regardless of its age. -/
theorem StatLogPath_expire_filter (now : Int) (acc : DiscoveryResult) (m : MatchInfo)
    (h1 : m.statErr = false) (h2 : m.isDir = false)
    (h3 : alook acc.reader.fileReaders m.realpath = none)
    (h4 : m.newErr = false) (h5 : acc.reader.status ≠ Status.sStopped) :
    (statLogPathStep now acc m = acc ↔
      ((alook acc.reader.cacheMap m.realpath).getD "" = "" ∧
        m.modTime + acc.reader.expire < now)) ∧
    ((alook acc.reader.cacheMap m.realpath).getD "" ≠ "" →
      alook (statLogPathStep now acc m).reader.fileReaders m.realpath =
        some { NewActiveReader m.origin m.realpath with
                 readcache := (alook acc.reader.cacheMap m.realpath).getD "" }) := by
  by_cases hc : (alook acc.reader.cacheMap m.realpath).getD "" = "" ∧
      m.modTime + acc.reader.expire < now
  · constructor
    · rw [iff_true_intro hc, iff_true]
      simp [statLogPathStep, h1, h2, h3, hc.1, hc.2]
    · intro hne
      exact absurd hc.1 hne
  · have hstep : statLogPathStep now acc m =
        { reader := { acc.reader with
            fileReaders := mapSet acc.reader.fileReaders m.realpath
              { NewActiveReader m.origin m.realpath with
                  readcache := (alook acc.reader.cacheMap m.realpath).getD "" } }
          started := acc.started ++ [m.realpath]
          abandoned := acc.abandoned } := by
      have hb : ((alook acc.reader.cacheMap m.realpath).getD "" = ""
          && decide (m.modTime + acc.reader.expire < now)) = false := by
        rcases Decidable.em ((alook acc.reader.cacheMap m.realpath).getD "" = "") with he | he
        · have hlt : ¬ (m.modTime + acc.reader.expire < now) := fun hl => hc ⟨he, hl⟩
          simp [he, hlt]
        · simp [he]
      simp [statLogPathStep, h1, h2, h3, h4, hb, h5]
    constructor
    · rw [iff_false_intro hc, iff_false]
      intro heq
      have : alook (statLogPathStep now acc m).reader.fileReaders m.realpath =
          alook acc.reader.fileReaders m.realpath := by rw [heq]
      rw [hstep] at this
      simp only at this
      rw [alook_mapSet_self, h3] at this
      exact Option.noConfusion this
    · intro _
      rw [hstep]
      simp only
      exact alook_mapSet_self _ _ _

/-- Witness for C4 at a concrete match whose cached pending line is nonempty
while the file is stale by time: it is accepted and seeded with the line. -/
theorem StatLogPath_expire_filter_witness :
    (statLogPathStep 1000
      { reader := { NewReader 2 10 [("p", "x")] with status := Status.sRunning },
        started := [], abandoned := [] }
      { origin := "p", realpath := "p", statErr := false, isDir := false,
        modTime := 0, newErr := false } =
      { reader := { NewReader 2 10 [("p", "x")] with status := Status.sRunning },
        started := [], abandoned := [] } ↔
      ((alook ({ NewReader 2 10 [("p", "x")] with
          status := Status.sRunning } : Reader).cacheMap "p").getD "" = "" ∧
        (0 : Int) + ({ NewReader 2 10 [("p", "x")] with
          status := Status.sRunning } : Reader).expire < 1000)) ∧
    ((alook ({ NewReader 2 10 [("p", "x")] with
        status := Status.sRunning } : Reader).cacheMap "p").getD "" ≠ "" →
      alook (statLogPathStep 1000
        { reader := { NewReader 2 10 [("p", "x")] with status := Status.sRunning },
          started := [], abandoned := [] }
        { origin := "p", realpath := "p", statErr := false, isDir := false,
          modTime := 0, newErr := false }).reader.fileReaders "p" =
        some { NewActiveReader "p" "p" with
                 readcache := (alook ({ NewReader 2 10 [("p", "x")] with
                   status := Status.sRunning } : Reader).cacheMap "p").getD "" }) :=
  StatLogPath_expire_filter 1000
    { reader := { NewReader 2 10 [("p", "x")] with status := Status.sRunning },
      started := [], abandoned := [] }
    { origin := "p", realpath := "p", statErr := false, isDir := false,
      modTime := 0, newErr := false }
    rfl rfl (by decide) rfl (by decide)


/- ------------------------------------------------------------------ -/
/- C1: the maxOpenFiles pass guard                                     -/
/- ------------------------------------------------------------------ -/

lemma statLogPathStep_cases (now : Int) (acc : DiscoveryResult) (m : MatchInfo) :
    statLogPathStep now acc m = acc ∨
    (acc.reader.status = Status.sStopped ∧
      statLogPathStep now acc m =
        { acc with abandoned := acc.abandoned ++
            [{ NewActiveReader m.origin m.realpath with
                 readcache := (alook acc.reader.cacheMap m.realpath).getD "" }] }) ∨
    (acc.reader.status ≠ Status.sStopped ∧
      statLogPathStep now acc m =
        { reader := { acc.reader with
            fileReaders := mapSet acc.reader.fileReaders m.realpath
              { NewActiveReader m.origin m.realpath with
                  readcache := (alook acc.reader.cacheMap m.realpath).getD "" } }
          started := acc.started ++ [m.realpath]
          abandoned := acc.abandoned }) := by
  by_cases h1 : m.statErr = true
  · exact Or.inl (by simp [statLogPathStep, h1])
  by_cases h2 : m.isDir = true
  · exact Or.inl (by simp [statLogPathStep, h1, h2])
  by_cases h3 : (alook acc.reader.fileReaders m.realpath).isSome = true
  · exact Or.inl (by simp [statLogPathStep, h1, h2, h3])
  by_cases h4 : (alook acc.reader.cacheMap m.realpath).getD "" = "" ∧
      m.modTime + acc.reader.expire < now
  · exact Or.inl (by simp [statLogPathStep, h1, h2, h3, h4.1, h4.2])
  have hb : (decide ((alook acc.reader.cacheMap m.realpath).getD "" = "") &&
      decide (m.modTime + acc.reader.expire < now)) = false := by
    rcases Decidable.em ((alook acc.reader.cacheMap m.realpath).getD "" = "") with he | he
    · have hlt : ¬ (m.modTime + acc.reader.expire < now) := fun hl => h4 ⟨he, hl⟩
      simp [he, hlt]
    · simp [he]
  by_cases h5 : m.newErr = true
  · exact Or.inl (by simp [statLogPathStep, h1, h2, h3, hb, h5])
  by_cases h6 : acc.reader.status = Status.sStopped
  · refine Or.inr (Or.inl ⟨h6, ?_⟩)
    simp [statLogPathStep, h1, h2, h3, hb, h5, h6]
  · refine Or.inr (Or.inr ⟨h6, ?_⟩)
    simp [statLogPathStep, h1, h2, h3, hb, h5, h6]

lemma statLogPathStep_length (now : Int) (acc : DiscoveryResult) (m : MatchInfo) :
    (statLogPathStep now acc m).reader.fileReaders.length ≤
      acc.reader.fileReaders.length + 1 := by
  rcases statLogPathStep_cases now acc m with h | ⟨_, h⟩ | ⟨_, h⟩
  · rw [h]; omega
  · rw [h]
    show acc.reader.fileReaders.length ≤ acc.reader.fileReaders.length + 1
    omega
  · rw [h]
    show (mapSet acc.reader.fileReaders m.realpath _).length ≤
      acc.reader.fileReaders.length + 1
    exact mapSet_length_le _ _ _

lemma statLogPath_fold_length (now : Int) :
    ∀ (ms : List MatchInfo) (acc : DiscoveryResult),
      (ms.foldl (statLogPathStep now) acc).reader.fileReaders.length ≤
        acc.reader.fileReaders.length + ms.length := by
  intro ms
  induction ms with
  | nil => intro acc; simp
  | cons m rest ih =>
    intro acc
    simp only [List.foldl_cons, List.length_cons]
    have h1 := ih (statLogPathStep now acc m)
    have h2 := statLogPathStep_length now acc m
    omega

/-- Counterexample to claim C1: with maxOpenFiles = 1 and no tracked file, a
single discovery pass over two fresh matches creates two tailers, pushing
the tracked-file count past the limit — the guard is only evaluated at the
start of the pass, never per match. -/
theorem maxOpenFiles_exceeded_in_one_pass :
    (Reader.StatLogPath (mkReader Status.sRunning [] [] 1 1000) 0
      [{ origin := "a", realpath := "a", statErr := false, isDir := false,
         modTime := 0, newErr := false },
       { origin := "b", realpath := "b", statErr := false, isDir := false,
         modTime := 0, newErr := false }]).reader.fileReaders.length = 2 ∧
    (mkReader Status.sRunning [] [] 1 1000).maxOpenFiles = 1 := by
  decide

/-- Claim C1 (amended): when the tracked-file count already equals (or
exceeds) maxOpenFiles at the start of a discovery pass, the entire pass is
skipped and no tailer is created; within a single pass, however, the limit
is not rechecked, so a pass over several new matches can push the count
past maxOpenFiles — the count after a pass is bounded only by the count at
its start plus the number of glob matches. -/
theorem StatLogPath_maxOpenFiles_guard (now : Int) (mr : Reader) (ms : List MatchInfo) :
    (((mr.fileReaders.length : Int) ≥ mr.maxOpenFiles) →
      mr.StatLogPath now ms = { reader := mr, started := [], abandoned := [] }) ∧
    (mr.StatLogPath now ms).reader.fileReaders.length ≤
      mr.fileReaders.length + ms.length := by
  constructor
  · intro h
    simp [Reader.StatLogPath, h]
  · unfold Reader.StatLogPath
    split
    · simp
    · exact statLogPath_fold_length now ms { reader := mr, started := [], abandoned := [] }

/-- Witness for the amended C1: a reader at its limit skips the pass, and
the count bound holds there. -/
theorem StatLogPath_maxOpenFiles_guard_witness :
    Reader.StatLogPath
      (mkReader Status.sRunning [("a", NewActiveReader "a" "a")] [] 1 1000) 0
      [{ origin := "b", realpath := "b", statErr := false, isDir := false,
         modTime := 0, newErr := false }] =
      { reader := mkReader Status.sRunning [("a", NewActiveReader "a" "a")] [] 1 1000,
        started := [], abandoned := [] } ∧
    (Reader.StatLogPath
      (mkReader Status.sRunning [("a", NewActiveReader "a" "a")] [] 1 1000) 0
      [{ origin := "b", realpath := "b", statErr := false, isDir := false,
         modTime := 0, newErr := false }]).reader.fileReaders.length ≤
      (mkReader Status.sRunning [("a", NewActiveReader "a" "a")] [] 1 1000
        ).fileReaders.length + 1 :=
  ⟨(StatLogPath_maxOpenFiles_guard 0
      (mkReader Status.sRunning [("a", NewActiveReader "a" "a")] [] 1 1000)
      [{ origin := "b", realpath := "b", statErr := false, isDir := false,
         modTime := 0, newErr := false }]).1 (by decide),
   (StatLogPath_maxOpenFiles_guard 0
      (mkReader Status.sRunning [("a", NewActiveReader "a" "a")] [] 1 1000)
      [{ origin := "b", realpath := "b", statErr := false, isDir := false,
         modTime := 0, newErr := false }]).2⟩

/- ------------------------------------------------------------------ -/
/- C6: abandonment of a tailer created while the watch is Stopped      -/
/- ------------------------------------------------------------------ -/

lemma statLogPathStep_stopped (now : Int) (acc : DiscoveryResult) (m : MatchInfo)
    (h : acc.reader.status = Status.sStopped) :
    (statLogPathStep now acc m).reader = acc.reader ∧
    (statLogPathStep now acc m).started = acc.started ∧
    (∀ a ∈ (statLogPathStep now acc m).abandoned,
      a ∈ acc.abandoned ∨ a.brClosed = false) := by
  rcases statLogPathStep_cases now acc m with heq | ⟨_, heq⟩ | ⟨hne, heq⟩
  · rw [heq]
    exact ⟨rfl, rfl, fun a ha => Or.inl ha⟩
  · rw [heq]
    refine ⟨rfl, rfl, ?_⟩
    intro a ha
    simp only [List.mem_append, List.mem_singleton] at ha
    rcases ha with ha | ha
    · exact Or.inl ha
    · subst ha
      exact Or.inr rfl
  · exact absurd h hne

lemma statLogPath_fold_stopped (now : Int) :
    ∀ (ms : List MatchInfo) (acc : DiscoveryResult),
      acc.reader.status = Status.sStopped →
      (ms.foldl (statLogPathStep now) acc).reader = acc.reader ∧
      (ms.foldl (statLogPathStep now) acc).started = acc.started ∧
      (∀ a ∈ (ms.foldl (statLogPathStep now) acc).abandoned,
        a ∈ acc.abandoned ∨ a.brClosed = false) := by
  intro ms
  induction ms with
  | nil => intro acc _; exact ⟨rfl, rfl, fun a ha => Or.inl ha⟩
  | cons m rest ih =>
    intro acc h
    obtain ⟨hr, hst, hab⟩ := statLogPathStep_stopped now acc m h
    have h2 : (statLogPathStep now acc m).reader.status = Status.sStopped := by
      rw [hr]; exact h
    obtain ⟨ir, ist, iab⟩ := ih (statLogPathStep now acc m) h2
    simp only [List.foldl_cons]
    refine ⟨by rw [ir, hr], by rw [ist, hst], ?_⟩
    intro a ha
    rcases iab a ha with hin | hcl
    · exact hab a hin
    · exact Or.inr hcl

/-- Counterexample to claim C6: on a concrete watch observed Stopped during
discovery, the accepted match's tailer is created and abandoned — it is not
registered and its run loop is not started, but it is NOT closed: its
underlying buffered reader is left open (brClosed = false), so the closing
of the abandoned tailer asserted by the claim does not happen. -/
theorem stopped_discovery_leaves_tailer_open :
    (Reader.StatLogPath (mkReader Status.sStopped [] [] 10 1000) 0
      [{ origin := "a", realpath := "a", statErr := false, isDir := false,
         modTime := 0, newErr := false }]).abandoned =
      [{ NewActiveReader "a" "a" with readcache := "" }] ∧
    ({ NewActiveReader "a" "a" with readcache := "" } : ActiveReader).brClosed = false ∧
    (Reader.StatLogPath (mkReader Status.sStopped [] [] 10 1000) 0
      [{ origin := "a", realpath := "a", statErr := false, isDir := false,
         modTime := 0, newErr := false }]).reader.fileReaders = [] ∧
    (Reader.StatLogPath (mkReader Status.sStopped [] [] 10 1000) 0
      [{ origin := "a", realpath := "a", statErr := false, isDir := false,
         modTime := 0, newErr := false }]).started = [] := by
  decide

/-- Claim C6 (amended): if the watch status is observed Stopped during
discovery, creation of a tailer for an accepted match is abandoned — it is
not registered in the tracked set (the reader state is unchanged) and its
run loop is not started — but the abandoned tailer is NOT closed: its
underlying buffered reader remains open. -/
theorem StatLogPath_stopped_abandons (now : Int) (mr : Reader) (ms : List MatchInfo)
    (h : mr.status = Status.sStopped) :
    (mr.StatLogPath now ms).reader = mr ∧
    (mr.StatLogPath now ms).started = [] ∧
    (∀ a ∈ (mr.StatLogPath now ms).abandoned, a.brClosed = false) := by
  unfold Reader.StatLogPath
  split
  · exact ⟨rfl, rfl, by intro a ha; simp at ha⟩
  · obtain ⟨hr, hst, hab⟩ := statLogPath_fold_stopped now ms
      { reader := mr, started := [], abandoned := [] } h
    refine ⟨hr, hst, ?_⟩
    intro a ha
    rcases hab a ha with hin | hcl
    · simp at hin
    · exact hcl

/-- Witness for the amended C6 at a concrete stopped watch. -/
theorem StatLogPath_stopped_abandons_witness :
    (Reader.StatLogPath (mkReader Status.sStopped [] [("a", "x")] 10 1000) 0
      [{ origin := "a", realpath := "a", statErr := false, isDir := false,
         modTime := 0, newErr := false }]).reader =
      mkReader Status.sStopped [] [("a", "x")] 10 1000 ∧
    (Reader.StatLogPath (mkReader Status.sStopped [] [("a", "x")] 10 1000) 0
      [{ origin := "a", realpath := "a", statErr := false, isDir := false,
         modTime := 0, newErr := false }]).started = [] ∧
    (∀ a ∈ (Reader.StatLogPath (mkReader Status.sStopped [] [("a", "x")] 10 1000) 0
      [{ origin := "a", realpath := "a", statErr := false, isDir := false,
         modTime := 0, newErr := false }]).abandoned, a.brClosed = false) :=
  StatLogPath_stopped_abandons 0 (mkReader Status.sStopped [] [("a", "x")] 10 1000)
    [{ origin := "a", realpath := "a", statErr := false, isDir := false,
       modTime := 0, newErr := false }]
    rfl

/- ------------------------------------------------------------------ -/
/- C7: the SyncMeta frame condition                                    -/
/- ------------------------------------------------------------------ -/

lemma syncFold_untouched (P : String) :
    ∀ (ars : List (String × ActiveReader)) (cm : List (String × String)),
      (∀ q ∈ ars, q.2.realpath ≠ P ∨ q.2.readcache = "") →
      alook (ars.foldl syncStep cm) P = alook cm P := by
  intro ars
  induction ars with
  | nil => intro cm _; rfl
  | cons q rest ih =>
    intro cm hall
    simp only [List.foldl_cons]
    rw [ih (syncStep cm q) (fun q2 h2 => hall q2 (List.mem_cons_of_mem _ h2))]
    rcases hall q (List.mem_cons_self _ _) with hne | hemp
    · unfold syncStep
      by_cases hrc : q.2.readcache = ""
      · rw [if_pos hrc]
      · rw [if_neg hrc]
        exact alook_mapSet_ne _ _ _ _ hne
    · unfold syncStep
      rw [if_pos hemp]

lemma syncFold_entry (P l : String) (hne : l ≠ "") :
    ∀ (ars : List (String × ActiveReader)) (cm : List (String × String)),
      (∃ q ∈ ars, q.2.realpath = P ∧ q.2.readcache = l) →
      (∀ q ∈ ars, q.2.realpath = P → q.2.readcache = l) →
      alook (ars.foldl syncStep cm) P = some l := by
  intro ars
  induction ars with
  | nil =>
    intro cm hex _
    simp at hex
  | cons q rest ih =>
    intro cm hex hall
    simp only [List.foldl_cons]
    by_cases hr : ∃ q2 ∈ rest, q2.2.realpath = P ∧ q2.2.readcache = l
    · exact ih (syncStep cm q) hr (fun q2 h2 => hall q2 (List.mem_cons_of_mem _ h2))
    · obtain ⟨qq, hqmem, hqp, hqc⟩ := hex
      have hq : qq = q := by
        rcases List.mem_cons.mp hqmem with h | h
        · exact h
        · exact absurd ⟨qq, h, hqp, hqc⟩ hr
      subst hq
      have hrest : ∀ q2 ∈ rest, q2.2.realpath ≠ P ∨ q2.2.readcache = "" := by
        intro q2 h2
        left
        intro hp2
        exact hr ⟨q2, h2, hp2, hall q2 (List.mem_cons_of_mem _ h2) hp2⟩
      rw [syncFold_untouched P rest (syncStep cm qq) hrest]
      unfold syncStep
      rw [hqc, if_neg hne, hqp]
      exact alook_mapSet_self _ _ _

lemma nodup_key_unique (l : List (String × ActiveReader))
    (hnd : (l.map Prod.fst).Nodup) (k : String) (a b : ActiveReader)
    (ha : (k, a) ∈ l) (hb : (k, b) ∈ l) : a = b := by
  induction l with
  | nil => simp at ha
  | cons p rest ih =>
    simp only [List.map_cons, List.nodup_cons] at hnd
    rcases List.mem_cons.mp ha with ha1 | ha1
    · rcases List.mem_cons.mp hb with hb1 | hb1
      · have h3 : (k, a) = (k, b) := ha1.trans hb1.symm
        exact (Prod.ext_iff.mp h3).2
      · exfalso
        apply hnd.1
        rw [← ha1]
        exact List.mem_map.mpr ⟨(k, b), hb1, rfl⟩
    · rcases List.mem_cons.mp hb with hb1 | hb1
      · exfalso
        apply hnd.1
        rw [← hb1]
        exact List.mem_map.mpr ⟨(k, a), ha1, rfl⟩
      · exact ih hnd.2 ha1 hb1

lemma SyncMeta_cache_lookup (mr : Reader) (k : String) (ar : ActiveReader)
    (hkey : ∀ q ∈ mr.fileReaders, q.1 = q.2.realpath)
    (hnd : (mr.fileReaders.map Prod.fst).Nodup)
    (hmem : (k, ar) ∈ mr.fileReaders) (hne : ar.readcache ≠ "") :
    alook (mr.SyncMeta).reader.cacheMap k = some ar.readcache := by
  have hrp : ar.realpath = k := (hkey (k, ar) hmem).symm
  show alook (mr.fileReaders.foldl syncStep mr.cacheMap) k = some ar.readcache
  apply syncFold_entry k ar.readcache hne mr.fileReaders mr.cacheMap
  · exact ⟨(k, ar), hmem, hrp, rfl⟩
  · intro q hq hqp
    obtain ⟨q1, q2⟩ := q
    have hq1k : q1 = k := (hkey (q1, q2) hq).trans hqp
    subst hq1k
    have heq : q2 = ar := nodup_key_unique mr.fileReaders hnd q1 q2 ar hq hmem
    rw [heq]

lemma SyncMeta_cache_unchanged (mr : Reader) (k : String)
    (hkey : ∀ q ∈ mr.fileReaders, q.1 = q.2.realpath)
    (hall : ∀ ar, (k, ar) ∈ mr.fileReaders → ar.readcache = "") :
    alook (mr.SyncMeta).reader.cacheMap k = alook mr.cacheMap k := by
  show alook (mr.fileReaders.foldl syncStep mr.cacheMap) k = alook mr.cacheMap k
  apply syncFold_untouched
  intro q hq
  obtain ⟨q1, q2⟩ := q
  by_cases hp : q2.realpath = k
  · right
    have hq1 : q1 = k := (hkey (q1, q2) hq).trans hp
    subst hq1
    exact hall q2 hq
  · exact Or.inl hp

/-- Claim C7: SyncMeta updates the OffsetCache entry of an identity exactly
when that tailer's pending line is nonempty; identities whose pending line
is empty (or that have no tailer) keep their previous cache entry; entries
are never removed by sync; and the whole cache map is then written through
the Offset Store as one single buffer, not per key. -/
theorem SyncMeta_frame (mr : Reader) (k : String)
    (hkey : ∀ q ∈ mr.fileReaders, q.1 = q.2.realpath)
    (hnd : (mr.fileReaders.map Prod.fst).Nodup) :
    (∀ ar, (k, ar) ∈ mr.fileReaders → ar.readcache ≠ "" →
       alook (mr.SyncMeta).reader.cacheMap k = some ar.readcache) ∧
    ((∀ ar, (k, ar) ∈ mr.fileReaders → ar.readcache = "") →
       alook (mr.SyncMeta).reader.cacheMap k = alook mr.cacheMap k) ∧
    ((alook mr.cacheMap k).isSome = true →
       (alook (mr.SyncMeta).reader.cacheMap k).isSome = true) ∧
    (mr.SyncMeta).writes = [(mr.SyncMeta).reader.cacheMap] := by
  refine ⟨?_, ?_, ?_, rfl⟩
  · intro ar hmem hne
    exact SyncMeta_cache_lookup mr k ar hkey hnd hmem hne
  · intro hall
    exact SyncMeta_cache_unchanged mr k hkey hall
  · intro hsome
    by_cases hex : ∃ ar, (k, ar) ∈ mr.fileReaders ∧ ar.readcache ≠ ""
    · obtain ⟨ar, hmem, hne⟩ := hex
      rw [SyncMeta_cache_lookup mr k ar hkey hnd hmem hne]
      rfl
    · have hall : ∀ ar, (k, ar) ∈ mr.fileReaders → ar.readcache = "" := by
        intro ar hmem
        by_contra hne
        exact hex ⟨ar, hmem, hne⟩
      rw [SyncMeta_cache_unchanged mr k hkey hall]
      exact hsome

/-- Witness for C7 on a concrete reader with one drained and one pending
tailer. -/
theorem SyncMeta_frame_witness :
    (∀ ar, ("a", ar) ∈ (mkReader Status.sRunning
        [("a", { NewActiveReader "a" "a" with readcache := "x" }),
         ("b", NewActiveReader "b" "b")] [("b", "old"), ("c", "v")] 256 1000).fileReaders →
      ar.readcache ≠ "" →
      alook ((mkReader Status.sRunning
        [("a", { NewActiveReader "a" "a" with readcache := "x" }),
         ("b", NewActiveReader "b" "b")] [("b", "old"), ("c", "v")] 256 1000
        ).SyncMeta).reader.cacheMap "a" = some ar.readcache) ∧
    ((∀ ar, ("a", ar) ∈ (mkReader Status.sRunning
        [("a", { NewActiveReader "a" "a" with readcache := "x" }),
         ("b", NewActiveReader "b" "b")] [("b", "old"), ("c", "v")] 256 1000).fileReaders →
        ar.readcache = "") →
      alook ((mkReader Status.sRunning
        [("a", { NewActiveReader "a" "a" with readcache := "x" }),
         ("b", NewActiveReader "b" "b")] [("b", "old"), ("c", "v")] 256 1000
        ).SyncMeta).reader.cacheMap "a" =
        alook (mkReader Status.sRunning
        [("a", { NewActiveReader "a" "a" with readcache := "x" }),
         ("b", NewActiveReader "b" "b")] [("b", "old"), ("c", "v")] 256 1000).cacheMap "a") ∧
    ((alook (mkReader Status.sRunning
        [("a", { NewActiveReader "a" "a" with readcache := "x" }),
         ("b", NewActiveReader "b" "b")] [("b", "old"), ("c", "v")] 256 1000
        ).cacheMap "a").isSome = true →
      (alook ((mkReader Status.sRunning
        [("a", { NewActiveReader "a" "a" with readcache := "x" }),
         ("b", NewActiveReader "b" "b")] [("b", "old"), ("c", "v")] 256 1000
        ).SyncMeta).reader.cacheMap "a").isSome = true) ∧
    ((mkReader Status.sRunning
        [("a", { NewActiveReader "a" "a" with readcache := "x" }),
         ("b", NewActiveReader "b" "b")] [("b", "old"), ("c", "v")] 256 1000).SyncMeta).writes =
      [((mkReader Status.sRunning
        [("a", { NewActiveReader "a" "a" with readcache := "x" }),
         ("b", NewActiveReader "b" "b")] [("b", "old"), ("c", "v")] 256 1000
        ).SyncMeta).reader.cacheMap] :=
  SyncMeta_frame
    (mkReader Status.sRunning
      [("a", { NewActiveReader "a" "a" with readcache := "x" }),
       ("b", NewActiveReader "b" "b")] [("b", "old"), ("c", "v")] 256 1000)
    "a" (by decide) (by decide)

/- ------------------------------------------------------------------ -/
/- C3: pending-line round trip through the Offset Store                -/
/- ------------------------------------------------------------------ -/

/-- Claim C3: if at sync time identity P's tailer holds the nonempty pending
line l, then SyncMeta persists a buffer from which a fresh Reader over the
same store loads its cache, and when discovery later accepts a match for P
the new FileTailer is seeded with exactly l, so the resumed tailer emits l
first and then exactly the remaining source lines — no earlier duplicate
and no gap. -/
theorem SyncMeta_roundTrip (mr : Reader) (P l : String) (arP : ActiveReader)
    (mof exp now : Int) (m : MatchInfo) (src : List (String × RErr))
    (hmem : (P, arP) ∈ mr.fileReaders)
    (hkey : ∀ q ∈ mr.fileReaders, q.1 = q.2.realpath)
    (hnd : (mr.fileReaders.map Prod.fst).Nodup)
    (hl : arP.readcache = l) (hne : l ≠ "")
    (hmof : 0 < mof)
    (hm1 : m.realpath = P) (hm2 : m.statErr = false) (hm3 : m.isDir = false)
    (hm4 : m.newErr = false) :
    alook ((NewReader mof exp ((mr.SyncMeta).writes.headD [])).StatLogPath now
        [m]).reader.fileReaders P =
      some { NewActiveReader m.origin m.realpath with readcache := l } ∧
    ActiveReader.runEmissions
        { NewActiveReader m.origin m.realpath with readcache := l } src =
      l :: drainEmissions src := by
  subst hm1
  have hcache : alook (mr.SyncMeta).reader.cacheMap m.realpath = some l := by
    have h := SyncMeta_cache_lookup mr m.realpath arP hkey hnd hmem (by rw [hl]; exact hne)
    rw [hl] at h
    exact h
  constructor
  · unfold Reader.StatLogPath
    have hg : ¬ (((NewReader mof exp ((mr.SyncMeta).writes.headD [])
        ).fileReaders.length : Int) ≥
        (NewReader mof exp ((mr.SyncMeta).writes.headD [])).maxOpenFiles) := by
      simp only [NewReader, List.length_nil, Int.natCast_zero]
      omega
    rw [if_neg hg]
    simp only [List.foldl_cons, List.foldl_nil]
    unfold statLogPathStep
    have hcache2 : (alook ((mr.SyncMeta).writes.head?.getD []) m.realpath).getD "" = l := by
      show (alook (mr.SyncMeta).reader.cacheMap m.realpath).getD "" = l
      rw [hcache]
      rfl
    simp [NewReader, alook, hm2, hm3, hcache2, hne, hm4, mapSet]
  · simp [ActiveReader.runEmissions, hne]

/-- Witness for C3: a concrete watch with pending line x for identity p,
resumed over the persisted buffer; the resumed tailer emits x first. -/
theorem SyncMeta_roundTrip_witness :
    alook ((NewReader 256 5 (((mkReader Status.sRunning
        [("p", { NewActiveReader "p" "p" with
                   readcache := "x", status := Status.sRunning })] [] 1 5
        ).SyncMeta).writes.headD [])).StatLogPath 1000
        [{ origin := "p", realpath := "p", statErr := false, isDir := false,
           modTime := 0, newErr := false }]).reader.fileReaders "p" =
      some { NewActiveReader "p" "p" with readcache := "x" } ∧
    ActiveReader.runEmissions { NewActiveReader "p" "p" with readcache := "x" }
        [("y", RErr.noErr), ("", RErr.eofErr)] =
      "x" :: drainEmissions [("y", RErr.noErr), ("", RErr.eofErr)] :=
  SyncMeta_roundTrip
    (mkReader Status.sRunning
      [("p", { NewActiveReader "p" "p" with
                 readcache := "x", status := Status.sRunning })] [] 1 5)
    "p" "x"
    { NewActiveReader "p" "p" with readcache := "x", status := Status.sRunning }
    256 5 1000
    { origin := "p", realpath := "p", statErr := false, isDir := false,
      modTime := 0, newErr := false }
    [("y", RErr.noErr), ("", RErr.eofErr)]
    (by decide) (by decide) (by decide) rfl (by decide) (by decide)
    rfl rfl rfl rfl

end Tailx
